import Mathlib

/-
Verification of the Google-Search-Console analytics fetch pipeline of this
repository.  The repository contains two variants of the same composite
operation:

 * `app.py`, function `fetch_gsc_data` (lines 83-160): resolves the date
   range, builds the filter group, executes the backend query and minifies
   the rows into a CSV-like block; its whole body is wrapped in
   `try/except`, the handler returning `"Error fetching GSC data: ..."`.
 * `server.py`, function `get_search_analytics` (lines 27-116): same
   request construction, output is a Markdown table; only the backend call
   and the row loop are inside its `try`, while `get_gsc_service()` (the
   credential loading, lines 17-24) runs before the `try` and re-raises a
   `RuntimeError` on failure.

Python exceptions are embedded as `Except String`: `Except.error e` models
an exception carrying message `e` propagating out of the modelled code.
The hosted backend is a parameter (`Env.backend`), so theorems quantify
over every backend behaviour (rows, empty rows, raised errors).
Calendar dates are embedded as day ordinals (`Int`, days since 1970-01-01);
`datetime.date` arithmetic with `timedelta(days = n)` is exactly ordinal
arithmetic, and `isoformat` converts an ordinal to `"YYYY-MM-DD"` with the
standard civil-from-days algorithm (proleptic Gregorian, the calendar
`datetime` uses).
-/

/-- Decimal digit character: `digitChar k` is the character for digit `k < 10`. -/
def digitChar (n : Nat) : Char := Char.ofNat (48 + n)

/-- Decimal digits of a natural number, most significant first.  Fuel-based
structural recursion so that the kernel can evaluate it; `fuel = n + 1`
always suffices. -/
def natDigitsAux : Nat → Nat → List Char
  | 0, _ => []
  | fuel + 1, n =>
    if n < 10 then [digitChar n]
    else natDigitsAux fuel (n / 10) ++ [digitChar (n % 10)]

/-- Python `str` of a non-negative integer (plain decimal digits). -/
def natRender (n : Nat) : String := ⟨natDigitsAux (n + 1) n⟩

/-- Python `str` of an integer. -/
def intRender (z : Int) : String :=
  (if z < 0 then "-" else "") ++ natRender z.natAbs

/-- Exact decimal number `mant / 10 ^ exp`.  The backend returns `ctr` and
`position` as JSON decimal numbers; this type carries the decimal value a
Python float holds for them, so rendering can be stated exactly. -/
structure DecNum where
  mant : Int
  exp : Nat
deriving DecidableEq

/-- Fractional digit block of `m` padded on the left with zeros to `e` digits. -/
def fracRender (m e : Nat) : String :=
  ⟨List.replicate (e - (natDigitsAux (m + 1) m).length) ('0') ++ natDigitsAux (m + 1) m⟩

/-- Python `str`/`repr` of the decimal value `x` (e.g. `0.024`, `8.34`):
integer part, a point, then `exp` fractional digits. -/
def renderDec (x : DecNum) : String :=
  (if x.mant < 0 then "-" else "") ++
  (if x.exp = 0 then natRender x.mant.natAbs
   else natRender (x.mant.natAbs / 10 ^ x.exp) ++ "." ++
        fracRender (x.mant.natAbs % 10 ^ x.exp) x.exp)

/-- Round `n / d` to the nearest integer, ties to even (the rounding Python
`format` applies), for `d > 0`. -/
def roundHalfEvenN (n d : Nat) : Nat :=
  if 2 * (n % d) < d then n / d
  else if d < 2 * (n % d) then n / d + 1
  else if n / d % 2 = 0 then n / d else n / d + 1

/-- Python `f"{x:.1f}"`: the value rendered with exactly one fractional digit. -/
def fmtFixed1 (x : DecNum) : String :=
  (if x.mant < 0 then "-" else "") ++
  renderDec ⟨Int.ofNat (if x.exp ≤ 1 then x.mant.natAbs * 10 ^ (1 - x.exp)
                        else roundHalfEvenN x.mant.natAbs (10 ^ (x.exp - 1))), 1⟩

/-- The decimal value multiplied by 100 (for percentage rendering). -/
def mul100 (x : DecNum) : DecNum :=
  if 2 ≤ x.exp then ⟨x.mant, x.exp - 2⟩ else ⟨x.mant * (10 ^ (2 - x.exp) : Nat), 0⟩

/-- Python `f"{x:.1%}"`: value times 100, one fractional digit, a percent sign. -/
def fmtPercent1 (x : DecNum) : String := fmtFixed1 (mul100 x) ++ "%"

/-- Number of comma characters in a string. -/
def commaCount (s : String) : Nat := s.data.count (',')

/-- CSV column count of a line: commas plus one. -/
def fieldCount (s : String) : Nat := commaCount s + 1

/-- Number of bar characters in a string (Markdown-table cell delimiter). -/
def barCount (s : String) : Nat := s.data.count ('|')

/-- Number of characters after the last decimal point of a string (the
rendered count of fractional digits). -/
def fracCount (s : String) : Nat :=
  (s.data.reverse.takeWhile (fun c => c != ('.'))).length

/-- Embeds `str(key_val).replace(',', '')` of `app.py` line 152: replacing a
single character by the empty string deletes every occurrence of it. -/
def stripCommas (s : String) : String := ⟨s.data.filter (fun c => c != (','))⟩

/-- Python `str.upper` on ASCII letters (the inputs here are country codes). -/
def pyUpper (s : String) : String := ⟨s.data.map Char.toUpper⟩

/-- Delete/replace-by-empty of every occurrence of `pat` in `s`, scanning left
to right without re-scanning (Python `s.replace(pat, '')`); `fuel` bounds the
recursion and `s.length` always suffices. -/
def listReplace : Nat → List Char → List Char → List Char
  | 0, s, _ => s
  | fuel + 1, s, pat =>
    match s with
    | [] => []
    | c :: rest =>
      if pat ≠ [] ∧ (c :: rest).take pat.length = pat then
        listReplace fuel ((c :: rest).drop pat.length) pat
      else c :: listReplace fuel rest pat

/-- Python `s.replace(pat, "")`. -/
def pyRemove (s pat : String) : String := ⟨listReplace s.data.length s.data pat.data⟩

/-- Python `"\n".join`-style concatenation with a separator. -/
def joinSep (sep : String) : List String → String
  | [] => ""
  | [x] => x
  | x :: y :: xs => x ++ sep ++ joinSep sep (y :: xs)

/-- Concatenation of a list of strings (the `result_text += ...` loop of
`server.py`). -/
def concatAll : List String → String
  | [] => ""
  | x :: xs => x ++ concatAll xs

/-- Civil calendar date (proleptic Gregorian) of a day ordinal, days counted
from 1970-01-01; the standard civil-from-days algorithm, matching
`datetime.date` arithmetic. -/
def civilFromDays (z0 : Int) : Int × Int × Int :=
  let z := z0 + 719468
  let era := (if 0 ≤ z then z else z - 146096) / 146097
  let doe := z - era * 146097
  let yoe := (doe - doe / 1460 + doe / 36524 - doe / 146096) / 365
  let y := yoe + era * 400
  let doy := doe - (365 * yoe + yoe / 4 - yoe / 100)
  let mp := (5 * doy + 2) / 153
  let d := doy - (153 * mp + 2) / 5 + 1
  let m := if mp < 10 then mp + 3 else mp - 9
  (if m ≤ 2 then y + 1 else y, m, d)

/-- Zero-pad to two digits. -/
def pad2 (n : Nat) : String := if n < 10 then "0" ++ natRender n else natRender n

/-- Zero-pad to four digits. -/
def pad4 (n : Nat) : String :=
  if n < 10 then "000" ++ natRender n
  else if n < 100 then "00" ++ natRender n
  else if n < 1000 then "0" ++ natRender n
  else natRender n

/-- Python `date.isoformat()` of a day ordinal: `"YYYY-MM-DD"`. -/
def isoformat (z : Int) : String :=
  pad4 (civilFromDays z).1.natAbs ++ "-" ++ pad2 (civilFromDays z).2.1.natAbs
  ++ "-" ++ pad2 (civilFromDays z).2.2.natAbs

/-- A Python value that may arrive in `days_ago` of `fetch_gsc_data`
(the tool arguments come from JSON: absent, a number, or a string). -/
inductive PyVal where
  | vNone : PyVal
  | vInt : Int → PyVal
  | vStr : String → PyVal
deriving DecidableEq

/-- Python truthiness of such a value (`None`, `0` and `""` are falsy). -/
def pyTruthy : PyVal → Bool
  | PyVal.vNone => false
  | PyVal.vInt z => z != 0
  | PyVal.vStr s => s != ""

/-- Python truthiness of an optional string argument. -/
def optTruthy : Option String → Bool
  | none => false
  | some s => s != ""

/-- ASCII decimal digit test. -/
def isDigitCh (c : Char) : Bool := decide (48 ≤ c.toNat) && decide (c.toNat ≤ 57)

/-- Value of a block of decimal digit characters. -/
def digitsToNat (l : List Char) : Nat := l.foldl (fun acc c => acc * 10 + (c.toNat - 48)) 0

/-- Python `int(str)`: an optional sign followed by decimal digits parses,
anything else raises `ValueError` (modelled as `none`). -/
def parseIntStr (s : String) : Option Int :=
  match s.data with
  | ('-') :: rest =>
    if rest ≠ [] ∧ rest.all isDigitCh then some (-(digitsToNat rest : Int)) else none
  | ('+') :: rest =>
    if rest ≠ [] ∧ rest.all isDigitCh then some ((digitsToNat rest : Int)) else none
  | l => if l ≠ [] ∧ l.all isDigitCh then some ((digitsToNat l : Int)) else none

/-- Python `int(v)` on a truthy argument; a failing conversion is a raised
`ValueError`, modelled as `Except.error`. -/
def pyInt : PyVal → Except String Int
  | PyVal.vNone => Except.error ("int() argument is not a string or a number")
  | PyVal.vInt z => Except.ok z
  | PyVal.vStr s =>
    match parseIntStr s with
    | some z => Except.ok z
    | none => Except.error ("invalid literal for int() with base 10: '" ++ s ++ "'")

/-- Embeds `app.py` line 105: `days_count = int(days_ago) if days_ago else 7`. -/
def daysCount (v : PyVal) : Except String Int :=
  if pyTruthy v then pyInt v else Except.ok 7

/-- Embeds `app.py` lines 98-110: if both `start_date` and `end_date` are
truthy they are used directly; otherwise `days_count` days are subtracted
from today and both endpoints are ISO-formatted. -/
def dateLogic (today : Int) (days_ago : PyVal) (start_date end_date : Option String) :
    Except String (String × String) :=
  if optTruthy start_date && optTruthy end_date then
    Except.ok (start_date.getD (""), end_date.getD (""))
  else
    match daysCount days_ago with
    | Except.error e => Except.error e
    | Except.ok n => Except.ok (isoformat (today - n), isoformat today)

/-- One dimension filter of the outgoing request body. -/
structure GSCFilter where
  dimension : String
  operator : String
  expression : String
deriving DecidableEq

/-- One element of `dimensionFilterGroups`. -/
structure FilterGroup where
  filters : List GSCFilter
deriving DecidableEq

/-- The outgoing search-analytics request body (`app.py` lines 113-129,
`server.py` lines 51-79). -/
structure GSCRequest where
  startDate : String
  endDate : String
  dimensions : List String
  rowLimit : Int
  dimensionFilterGroups : List FilterGroup
deriving DecidableEq

/-- The country filter of `app.py` line 124 / `server.py` lines 64-68:
exact match against the uppercased input. -/
def countryFilter (c : String) : GSCFilter := ⟨"country", "equals", pyUpper c⟩

/-- The page filter of `app.py` line 126 / `server.py` lines 72-76:
contains-match against the raw input. -/
def pageFilter (p : String) : GSCFilter := ⟨"page", "contains", p⟩

/-- Embeds the filter-construction of `app.py` lines 122-126: each filter is
appended when its argument is truthy, country first. -/
def buildFilters (c p : Option String) : List GSCFilter :=
  (if optTruthy c then [countryFilter (c.getD (""))] else []) ++
  (if optTruthy p then [pageFilter (p.getD (""))] else [])

/-- Embeds `app.py` lines 113-129: the base request starts with an empty
`dimensionFilterGroups` list and one group holding all filters is appended
only when the filter list is non-empty. -/
def buildRequest (fs fe dim : String) (lim : Int) (c p : Option String) : GSCRequest :=
  ⟨fs, fe, [dim], lim,
   if (buildFilters c p).isEmpty then [] else [⟨buildFilters c p⟩]⟩

/-- One raw backend row: `{'keys': [...], 'clicks': ..., 'impressions': ...,
'ctr': ..., 'position': ...}`. -/
structure AnalyticsRow where
  keys : List String
  clicks : Nat
  impressions : Nat
  ctr : DecNum
  position : DecNum
deriving DecidableEq

/-- The backend response; `response.get('rows', [])`. -/
structure GSCResponse where
  rows : List AnalyticsRow
deriving DecidableEq

/-- The CSV header of `app.py` line 145. -/
def appHeader (dim : String) : String := dim ++ ",clicks,impressions,ctr,position"

/-- The loop body of `app.py` lines 148-155: take the first element of the
row's `keys` (an empty list raises `IndexError`), strip commas from it, and
join the five fields with commas.  The numeric fields are interpolated raw. -/
def appRowLine (r : AnalyticsRow) : Except String String :=
  match r.keys with
  | [] => Except.error ("list index out of range")
  | k :: _ =>
    Except.ok (stripCommas k ++ "," ++ natRender r.clicks ++ "," ++
               natRender r.impressions ++ "," ++ renderDec r.ctr ++ "," ++
               renderDec r.position)

/-- Runs a per-row formatter over all rows in order, propagating the first
raised exception (the `for row in rows` loops of both variants). -/
def collectLines (f : AnalyticsRow → Except String String) :
    List AnalyticsRow → Except String (List String)
  | [] => Except.ok []
  | r :: rs =>
    match f r with
    | Except.error e => Except.error e
    | Except.ok line =>
      match collectLines f rs with
      | Except.error e => Except.error e
      | Except.ok lines => Except.ok (line :: lines)

/-- Embeds `app.py` lines 137-157: empty rows give the constant no-data
sentinel, otherwise header plus one CSV line per row joined by newlines. -/
def normalizeApp (dim : String) (rows : List AnalyticsRow) : Except String String :=
  if rows.isEmpty then Except.ok ("No data found for this period.")
  else
    match collectLines appRowLine rows with
    | Except.error e => Except.error e
    | Except.ok lines => Except.ok (joinSep ("\n") (appHeader dim :: lines))

/-- The external world of one invocation: the credential-loading outcome, the
current date (day ordinal) and the backend's behaviour per request. -/
structure Env where
  cred : Except String Unit
  today : Int
  backend : GSCRequest → Except String GSCResponse

/-- The argument tuple of `fetch_gsc_data` (`app.py` line 83). -/
structure FetchArgs where
  days_ago : PyVal
  start_date : Option String
  end_date : Option String
  dimension : String
  limit : Int
  filter_country : Option String
  filter_page : Option String
deriving DecidableEq

/-- The request-construction phase of `fetch_gsc_data` (`app.py` lines
98-129): date resolution then the request body. -/
def appRequest (env : Env) (a : FetchArgs) : Except String GSCRequest :=
  match dateLogic env.today a.days_ago a.start_date a.end_date with
  | Except.error e => Except.error e
  | Except.ok fsfe =>
    Except.ok (buildRequest fsfe.1 fsfe.2 a.dimension a.limit a.filter_country a.filter_page)

/-- The body of the `try` of `fetch_gsc_data` (`app.py` lines 89-157):
credential loading, date logic, request construction, backend call,
normalisation; any raised exception propagates. -/
def fetchBody (env : Env) (a : FetchArgs) : Except String String :=
  match env.cred with
  | Except.error e => Except.error e
  | Except.ok _ =>
    match appRequest env a with
    | Except.error e => Except.error e
    | Except.ok req =>
      match env.backend req with
      | Except.error e => Except.error e
      | Except.ok resp => normalizeApp a.dimension resp.rows

/-- Embeds `fetch_gsc_data` of `app.py` (lines 83-160): the whole body is in
`try/except Exception`, whose handler returns the error string. -/
def fetch_gsc_data (env : Env) (a : FetchArgs) : String :=
  match fetchBody env a with
  | Except.ok s => s
  | Except.error e => "Error fetching GSC data: " ++ e

/-- The argument tuple of `get_search_analytics` (`server.py` lines 27-32);
`days_ago` and `limit` are declared typed integers there. -/
structure ServerArgs where
  days_ago : Int
  dimension : String
  limit : Int
  filter_country : Option String
  filter_page_contains : Option String
deriving DecidableEq

/-- Embeds `get_gsc_service` of `server.py` lines 17-24: on credential
failure it raises `RuntimeError(f"Authentication failed: {e}")`. -/
def get_gsc_service (cred : Except String Unit) : Except String Unit :=
  match cred with
  | Except.ok u => Except.ok u
  | Except.error e => Except.error ("Authentication failed: " ++ e)

/-- The fixed site-root prefix stripped from page keys (`server.py` line 105). -/
def sitePrefix : String := "https://www.scaler.com"

/-- Embeds `server.py` lines 102-105: first key element; when grouping by
page, the site root is removed and a bare result falls back to `"/"`. -/
def serverKey (dim k : String) : String :=
  if dim = "page" then
    if pyRemove k sitePrefix = "" then "/" else pyRemove k sitePrefix
  else k

/-- The row loop body of `server.py` lines 101-111: one Markdown table row;
`ctr` is formatted `.1%` and `position` is formatted `.1f`. -/
def serverRowLine (dim : String) (r : AnalyticsRow) : Except String String :=
  match r.keys with
  | [] => Except.error ("list index out of range")
  | k :: _ =>
    Except.ok ("| " ++ serverKey dim k ++ " | " ++ natRender r.clicks ++ " | " ++
               natRender r.impressions ++ " | " ++ fmtPercent1 r.ctr ++ " | " ++
               fmtFixed1 r.position ++ " |\n")

/-- The heading and table header of `server.py` lines 94-99. -/
def serverPreamble (a : ServerArgs) : String :=
  "### Top " ++ intRender a.limit ++ " " ++ a.dimension ++ "s (Last " ++
  intRender a.days_ago ++ " days)\n" ++
  (if optTruthy a.filter_country then
     "- **Country:** " ++ a.filter_country.getD ("") ++ "\n" else "") ++
  (if optTruthy a.filter_page_contains then
     "- **URL Pattern:** '" ++ a.filter_page_contains.getD ("") ++ "'\n" else "") ++
  "\n| Key | Clicks | Impressions | CTR | Position |\n| :--- | :--- | :--- | :--- | :--- |\n"

/-- Embeds `server.py` lines 88-113: empty rows give a message naming the
dimension and `days_ago`, otherwise preamble plus one table row per row. -/
def serverNormalize (a : ServerArgs) (rows : List AnalyticsRow) : Except String String :=
  if rows.isEmpty then
    Except.ok ("No data found for " ++ a.dimension ++ " in the last " ++
               intRender a.days_ago ++ " days.")
  else
    match collectLines (serverRowLine a.dimension) rows with
    | Except.error e => Except.error e
    | Except.ok lines => Except.ok (serverPreamble a ++ concatAll lines)

/-- The request of `server.py` lines 47-79 (same construction as `app.py`). -/
def serverRequest (env : Env) (a : ServerArgs) : GSCRequest :=
  buildRequest (isoformat (env.today - a.days_ago)) (isoformat env.today)
    a.dimension a.limit a.filter_country a.filter_page_contains

/-- The `try` of `server.py` lines 81-116: backend call and normalisation;
any exception there is caught and converted to `"Error: ..."`. -/
def serverBackendPhase (env : Env) (a : ServerArgs) (req : GSCRequest) : String :=
  match (match env.backend req with
         | Except.error e => Except.error e
         | Except.ok resp => serverNormalize a resp.rows : Except String String) with
  | Except.ok s => s
  | Except.error e => "Error: " ++ e

/-- Embeds `get_search_analytics` of `server.py` (lines 27-116).  The
credential loading and the date/filter/request construction run before the
`try`, so a credential failure propagates as an exception (`Except.error`). -/
def get_search_analytics (env : Env) (a : ServerArgs) : Except String String :=
  match get_gsc_service env.cred with
  | Except.error e => Except.error e
  | Except.ok _ => Except.ok (serverBackendPhase env a (serverRequest env a))

/-- Modelled from the spec: the memoization state of the `@st.cache_data`
decorator (`app.py` line 82), whose implementation lives in the external
streamlit library, not in this repository.  Entries are keyed by the full
argument tuple and expire by time-to-live only (spec section 4.5). -/
structure CacheSt where
  entries : List (FetchArgs × String × Int)

/-- Modelled from the spec: a cache hit is an entry with the same argument
tuple whose expiry lies strictly after the current time. -/
def cacheLookup (st : CacheSt) (a : FetchArgs) (now : Int) : Option String :=
  match st.entries.find? (fun e => decide (e.1 = a) && decide (now < e.2.2)) with
  | some e => some e.2.1
  | none => none

/-- Modelled from the spec: `@st.cache_data(ttl=3600)` wrapping
`fetch_gsc_data`.  On a hit the stored result is returned with no backend
call; on a miss the pipeline runs once and its result (data, error or
no-data sentinel alike) is stored with expiry `now + 3600`.  The third
component counts the pipeline executions of this invocation. -/
def cachedFetch (env : Env) (st : CacheSt) (now : Int) (a : FetchArgs) :
    String × CacheSt × Nat :=
  match cacheLookup st a now with
  | some v => (v, st, 0)
  | none => (fetch_gsc_data env a, ⟨(a, fetch_gsc_data env a, now + 3600) :: st.entries⟩, 1)

/-- Fixture: a default argument tuple of `fetch_gsc_data` (all-default call). -/
def argsDefault : FetchArgs := ⟨PyVal.vNone, none, none, "query", 10, none, none⟩

/-- Fixture: default server arguments grouping by query. -/
def saQ : ServerArgs := ⟨7, "query", 10, none, none⟩

/-- Fixture: default server arguments grouping by page. -/
def saP : ServerArgs := ⟨7, "page", 10, none, none⟩

/-- Fixture: environment whose credential loading succeeds and whose backend
always answers with zero rows. -/
def envOkEmpty : Env := ⟨Except.ok (), 20000, fun _ => Except.ok ⟨[]⟩⟩

/-- Fixture: environment whose credential loading raises. -/
def envBad : Env := ⟨Except.error ("boom"), 20000, fun _ => Except.ok ⟨[]⟩⟩

/-- Fixture: a backend row with an empty `keys` list. -/
def rowEmptyKeys : AnalyticsRow := ⟨[], 1, 2, ⟨0, 0⟩, ⟨0, 0⟩⟩

/-- Fixture: environment whose backend returns one row with empty `keys`. -/
def envKeysBad : Env := ⟨Except.ok (), 20000, fun _ => Except.ok ⟨[rowEmptyKeys]⟩⟩

/-- Fixture: a row whose key contains the Markdown cell delimiter. -/
def rowBar : AnalyticsRow := ⟨["a|b"], 1, 10, ⟨24, 3⟩, ⟨83, 1⟩⟩

/-- Fixture: a row whose position value has two fractional digits. -/
def rowPos : AnalyticsRow := ⟨["k"], 5, 100, ⟨24, 3⟩, ⟨834, 2⟩⟩

/-- Character lists of appended strings append. -/
theorem str_data_append (a b : String) : (a ++ b).data = a.data ++ b.data := rfl

/-- Every character a digit renderer emits is a digit character. -/
theorem natDigitsAux_mem :
    ∀ (fuel n : Nat) (c : Char), c ∈ natDigitsAux fuel n → ∃ k, k < 10 ∧ c = digitChar k := by
  intro fuel
  induction fuel with
  | zero => intro n c h; simp [natDigitsAux] at h
  | succ f ih =>
    intro n c h
    by_cases h10 : n < 10
    · simp [natDigitsAux, h10] at h
      exact ⟨n, h10, h⟩
    · simp only [natDigitsAux, if_neg h10, List.mem_append, List.mem_singleton] at h
      rcases h with h | h
      · exact ih _ _ h
      · exact ⟨n % 10, Nat.mod_lt _ (by omega), h⟩

/-- Digit characters are neither commas nor points. -/
theorem digitChar_notin : ∀ k, k < 10 → digitChar k ≠ (',') ∧ digitChar k ≠ ('.') := by decide

/-- No comma appears among rendered digits. -/
theorem count_comma_natDigitsAux (fuel n : Nat) : (natDigitsAux fuel n).count (',') = 0 := by
  rw [List.count_eq_zero]
  intro h
  obtain ⟨k, hk, he⟩ := natDigitsAux_mem fuel n (',') h
  exact (digitChar_notin k hk).1 he.symm

/-- Comma counts add over string concatenation. -/
theorem commaCount_append (a b : String) : commaCount (a ++ b) = commaCount a + commaCount b := by
  simp [commaCount, str_data_append, List.count_append]

/-- Stripping commas leaves no comma. -/
theorem commaCount_stripCommas (s : String) : commaCount (stripCommas s) = 0 := by
  rw [commaCount, stripCommas]
  rw [List.count_eq_zero]
  simp

/-- Rendered naturals contain no comma. -/
theorem commaCount_natRender (n : Nat) : commaCount (natRender n) = 0 := by
  simpa [commaCount, natRender] using count_comma_natDigitsAux (n + 1) n

/-- Rendered fractional blocks contain no comma. -/
theorem commaCount_fracRender (m e : Nat) : commaCount (fracRender m e) = 0 := by
  simp [commaCount, fracRender, List.count_append, count_comma_natDigitsAux,
        List.count_replicate]

/-- Rendered decimal values contain no comma. -/
theorem commaCount_renderDec (x : DecNum) : commaCount (renderDec x) = 0 := by
  have hdot : commaCount (".") = 0 := by decide
  have hdash : commaCount ("-") = 0 := by decide
  have hemp : commaCount ("") = 0 := by decide
  unfold renderDec
  split <;> split <;>
    simp [commaCount_append, hdot, hdash, hemp, commaCount_natRender, commaCount_fracRender]

/-- A string whose character list ends in a point followed by one non-point
character has exactly one fractional digit. -/
theorem fracCount_eq_one_of_data (s : String) (l : List Char) (c : Char)
    (hd : s.data = l ++ ('.') :: [c]) (hc : (c != ('.')) = true) : fracCount s = 1 := by
  rw [fracCount, hd]
  simp [List.takeWhile_cons, hc]

/-- Anything rendered as a one-fractional-digit decimal shows exactly one
digit after the point, whatever precedes it. -/
theorem fracCount_one (pre : String) (m : Nat) :
    fracCount (pre ++ renderDec ⟨Int.ofNat m, 1⟩) = 1 := by
  have hm : m % 10 < 10 := Nat.mod_lt _ (by omega)
  have hdig : natDigitsAux (m % 10 + 1) (m % 10) = [digitChar (m % 10)] := by
    unfold natDigitsAux
    simp [hm]
  have hmarkers := digitChar_notin (m % 10) hm
  have hne : (digitChar (m % 10) != ('.')) = true := by
    simpa [bne_iff_ne] using hmarkers.2
  refine fracCount_eq_one_of_data _ (pre.data ++ (natRender (m / 10)).data)
    (digitChar (m % 10)) ?_ hne
  rw [str_data_append]
  unfold renderDec
  rw [if_neg (by simp : ¬ ((⟨Int.ofNat m, 1⟩ : DecNum).mant < 0))]
  rw [if_neg (by simp : ¬ ((⟨Int.ofNat m, 1⟩ : DecNum).exp = 0))]
  simp [str_data_append, fracRender, hdig]

/-- Python `.1f` output always shows exactly one fractional digit. -/
theorem fracCount_fmtFixed1 (x : DecNum) : fracCount (fmtFixed1 x) = 1 := by
  unfold fmtFixed1
  exact fracCount_one _ _

/-- The only exception a CSV row formatter raises is the empty-keys
`IndexError` message. -/
theorem appRowLine_err (r : AnalyticsRow) (e : String)
    (h : appRowLine r = Except.error e) : e = "list index out of range" := by
  cases hk : r.keys with
  | nil => rw [appRowLine, hk] at h; simp at h; exact h.symm
  | cons k ks => rw [appRowLine, hk] at h; simp at h

/-- The only exception a Markdown row formatter raises is the empty-keys
`IndexError` message. -/
theorem serverRowLine_err (dim : String) (r : AnalyticsRow) (e : String)
    (h : serverRowLine dim r = Except.error e) : e = "list index out of range" := by
  cases hk : r.keys with
  | nil => rw [serverRowLine, hk] at h; simp at h; exact h.symm
  | cons k ks => rw [serverRowLine, hk] at h; simp at h

/-- If any row of the batch raises the formatter's (unique) error message,
the whole loop raises it. -/
theorem collectLines_err (f : AnalyticsRow → Except String String) (M : String)
    (hf : ∀ x e, f x = Except.error e → e = M) :
    ∀ (rows : List AnalyticsRow) (r : AnalyticsRow), r ∈ rows → f r = Except.error M →
      collectLines f rows = Except.error M := by
  intro rows
  induction rows with
  | nil => intro r hr _; exact absurd hr (List.not_mem_nil r)
  | cons x xs ih =>
    intro r hr hfr
    rcases List.mem_cons.mp hr with h | h
    · subst h
      simp [collectLines, hfr]
    · cases hx : f x with
      | error e =>
        have he := hf x e hx
        subst he
        simp [collectLines, hx]
      | ok line =>
        have hxs := ih r h hfr
        simp [collectLines, hx, hxs]

/-- Claim C1 (amended).  The `app.py` composite `fetch_gsc_data` never lets
an exception escape: for every environment (credential outcome, date,
backend behaviour) and every argument tuple it returns the body's string on
success and the `"Error fetching GSC data: ..."` sentinel on any raised
exception, credential loading and date resolution included.  The
`server.py` variant fails soft only from the backend call onwards: once
credentials load, it always returns a string, but a credential-loading
failure propagates a raised `RuntimeError` past its public boundary. -/
theorem fetch_failSoft_and_server_auth_boundary :
    (∀ (env : Env) (a : FetchArgs),
       (∃ s, fetchBody env a = Except.ok s ∧ fetch_gsc_data env a = s)
       ∨ (∃ e, fetchBody env a = Except.error e ∧
           fetch_gsc_data env a = "Error fetching GSC data: " ++ e))
    ∧ (∀ (env : Env) (a : ServerArgs), env.cred = Except.ok () →
         ∃ s, get_search_analytics env a = Except.ok s)
    ∧ (∀ (env : Env) (a : ServerArgs) (e : String), env.cred = Except.error e →
         get_search_analytics env a = Except.error ("Authentication failed: " ++ e)) := by
  refine ⟨?_, ?_, ?_⟩
  · intro env a
    cases h : fetchBody env a with
    | ok s => exact Or.inl ⟨s, rfl, by simp [fetch_gsc_data, h]⟩
    | error e => exact Or.inr ⟨e, rfl, by simp [fetch_gsc_data, h]⟩
  · intro env a hc
    exact ⟨serverBackendPhase env a (serverRequest env a),
           by simp [get_search_analytics, get_gsc_service, hc]⟩
  · intro env a e hc
    simp [get_search_analytics, get_gsc_service, hc]

/-- Claim C1 counterexample: in the `server.py` variant a credential-loading
failure (here message `"boom"`) escapes `get_search_analytics` as a raised
exception (`Except.error`), so the composite operation does not always
return a string. -/
theorem server_cred_failure_escapes :
    get_search_analytics envBad saQ = Except.error ("Authentication failed: boom") := rfl

/-- Claim C1 witness: with loaded credentials the server variant returns a
string, and with failing credentials it raises. -/
theorem fetch_failSoft_witness :
    (∃ s, get_search_analytics envOkEmpty saQ = Except.ok s)
    ∧ get_search_analytics envBad saQ
        = Except.error ("Authentication failed: " ++ "boom") :=
  ⟨fetch_failSoft_and_server_auth_boundary.2.1 envOkEmpty saQ rfl,
   fetch_failSoft_and_server_auth_boundary.2.2 envBad saQ ("boom") rfl⟩

/-- Claim C2 counterexample: `days_count = int(days_ago) if days_ago else 7`
(`app.py` line 105) does not default negative input to 7 — `days_ago = -3`
resolves the range to `[today + 3, today]`, not `[today - 7, today]` — and a
non-numeric string raises `ValueError` instead of falling back to the
default. -/
theorem days_ago_nonpositive_not_defaulted :
    dateLogic 20000 (PyVal.vInt (-3)) none none
        = Except.ok (isoformat (20000 + 3), isoformat 20000)
    ∧ isoformat (20000 + 3) ≠ isoformat (20000 - 7)
    ∧ dateLogic 20000 (PyVal.vStr ("seven")) none none
        = Except.error ("invalid literal for int() with base 10: 'seven'") :=
  ⟨rfl, by decide, rfl⟩

/-- Claim C2 (amended).  `days_ago` falls back to the default 7 exactly when
it is Python-falsy (absent/None, zero, or the empty string); a nonzero
integer — negative ones included — is used as-is; a non-numeric string
raises `ValueError` inside the pipeline (converted to the error sentinel
only by the outer handler), rather than being replaced by the default. -/
theorem days_count_policy :
    (∀ v : PyVal, pyTruthy v = false → daysCount v = Except.ok 7)
    ∧ (∀ z : Int, z ≠ 0 → daysCount (PyVal.vInt z) = Except.ok z)
    ∧ (∀ s : String, s ≠ "" → parseIntStr s = none →
         daysCount (PyVal.vStr s)
           = Except.error ("invalid literal for int() with base 10: '" ++ s ++ "'")) := by
  refine ⟨?_, ?_, ?_⟩
  · intro v hv
    simp [daysCount, hv]
  · intro z hz
    simp [daysCount, pyTruthy, pyInt, hz]
  · intro s hs hp
    simp [daysCount, pyTruthy, pyInt, hs, hp]

/-- Claim C2 witness: absent input gives 7, `-3` stays `-3`, `"seven"` raises. -/
theorem days_count_policy_witness :
    daysCount PyVal.vNone = Except.ok 7
    ∧ daysCount (PyVal.vInt (-3)) = Except.ok (-3)
    ∧ daysCount (PyVal.vStr ("seven"))
        = Except.error ("invalid literal for int() with base 10: '" ++ "seven" ++ "'") :=
  ⟨days_count_policy.1 PyVal.vNone rfl,
   days_count_policy.2.1 (-3) (by decide),
   days_count_policy.2.2 ("seven") (by decide) rfl⟩

/-- Claim C5 (confirmed): with no (truthy) filter supplied the outgoing
request's `dimensionFilterGroups` list is empty — no filter-group element is
ever placed in it — and with at least one filter supplied it holds exactly
one group carrying all supplied filters. -/
theorem filter_group_omission (fs fe dim : String) (lim : Int) (c p : Option String) :
    (optTruthy c = false → optTruthy p = false →
       (buildRequest fs fe dim lim c p).dimensionFilterGroups = [])
    ∧ (optTruthy c = true ∨ optTruthy p = true →
       (buildRequest fs fe dim lim c p).dimensionFilterGroups = [⟨buildFilters c p⟩]) := by
  constructor
  · intro hc hp
    simp [buildRequest, buildFilters, hc, hp]
  · intro h
    cases hc : optTruthy c <;> cases hp : optTruthy p <;>
      simp_all [buildRequest, buildFilters]

/-- Claim C5 witness: no filters yields no group; a country filter yields
exactly one group. -/
theorem filter_group_omission_witness :
    (buildRequest (isoformat 19993) (isoformat 20000) ("query") 10 none none).dimensionFilterGroups = []
    ∧ (buildRequest (isoformat 19993) (isoformat 20000) ("query") 10 (some ("IND"))
        none).dimensionFilterGroups = [⟨buildFilters (some ("IND")) none⟩] :=
  ⟨(filter_group_omission (isoformat 19993) (isoformat 20000) ("query") 10 none none).1 rfl rfl,
   (filter_group_omission (isoformat 19993) (isoformat 20000) ("query") 10 (some ("IND")) none).2
     (Or.inl (by decide))⟩

/-- Claim C7 (confirmed): for every `n > 0`, the relative-days resolution of
`app.py` lines 105-110 yields end = today and start = today − n, by
calendar-day (ordinal) subtraction. -/
theorem relative_days_resolution (today n : Int) (h : 0 < n) :
    dateLogic today (PyVal.vInt n) none none
      = Except.ok (isoformat (today - n), isoformat today) := by
  have hn : (n != 0) = true := by
    simp only [bne_iff_ne, ne_eq]
    omega
  simp [dateLogic, optTruthy, daysCount, pyTruthy, hn, pyInt]

/-- Claim C7 witness: three days back from ordinal 20000 (2024-10-04). -/
theorem relative_days_resolution_witness :
    (0 : Int) < 3
    ∧ dateLogic 20000 (PyVal.vInt 3) none none
        = Except.ok (isoformat 19997, isoformat 20000)
    ∧ isoformat 20000 = "2024-10-04" ∧ isoformat 19997 = "2024-10-01" :=
  ⟨by decide, relative_days_resolution 20000 3 (by decide), by decide, by decide⟩

/-- Claim C8 (confirmed): every truthy (non-empty) country-filter input is
placed in the filter list, first, as an equals-filter whose expression is
the uppercased input. -/
theorem country_filter_uppercased (c : String) (p : Option String) (h : c ≠ "") :
    ∃ rest, buildFilters (some c) p = countryFilter c :: rest
      ∧ countryFilter c = ⟨"country", "equals", pyUpper c⟩ := by
  have hc : optTruthy (some c) = true := by
    simp only [optTruthy, bne_iff_ne, ne_eq]
    exact h
  refine ⟨if optTruthy p then [pageFilter (p.getD (""))] else [], ?_, rfl⟩
  simp [buildFilters, hc]

/-- Claim C8 witness: `"ind"`, `"InD"` and `"IND"` all produce expression
`"IND"`. -/
theorem country_filter_uppercased_witness :
    (∃ rest, buildFilters (some ("ind")) none = countryFilter ("ind") :: rest
       ∧ countryFilter ("ind") = ⟨"country", "equals", pyUpper ("ind")⟩)
    ∧ (∃ rest, buildFilters (some ("InD")) none = countryFilter ("InD") :: rest
       ∧ countryFilter ("InD") = ⟨"country", "equals", pyUpper ("InD")⟩)
    ∧ pyUpper ("ind") = "IND" ∧ pyUpper ("InD") = "IND" ∧ pyUpper ("IND") = "IND" :=
  ⟨country_filter_uppercased ("ind") none (by decide),
   country_filter_uppercased ("InD") none (by decide),
   by decide, by decide, by decide⟩

/-- Claim C3 counterexample: the Markdown normalizer of `server.py` does not
strip its cell delimiter from keys — the key `"a|b"` is emitted verbatim, so
its data line has 8 bar-separated cells while the table header line has 7
(bar counts 7 versus 6). -/
theorem markdown_key_delimiter_not_stripped :
    serverRowLine ("query") rowBar = Except.ok ("| a|b | 1 | 10 | 2.4% | 8.3 |\n")
    ∧ barCount ("| a|b | 1 | 10 | 2.4% | 8.3 |\n") = 7
    ∧ serverPreamble saQ
        = "### Top 10 querys (Last 7 days)\n\n| Key | Clicks | Impressions | CTR | Position |\n| :--- | :--- | :--- | :--- | :--- |\n"
    ∧ barCount ("| Key | Clicks | Impressions | CTR | Position |") = 6 :=
  ⟨rfl, by decide, rfl, by decide⟩

/-- Claim C3 (amended).  In the compact CSV form (`app.py`) the comma
delimiter is stripped from the key, so every data-row string has exactly
five comma-separated fields, the same count as the header (for any grouping
dimension whose name itself has no comma).  The Markdown table form
(`server.py`) does not strip its `|` delimiter: for any non-page grouping
the key is emitted verbatim. -/
theorem csv_field_count_invariant (dim : String) (r : AnalyticsRow) (k : String)
    (rest : List String) (hk : r.keys = k :: rest) (hdim : commaCount dim = 0) :
    (∃ line, appRowLine r = Except.ok line ∧ fieldCount line = 5
       ∧ fieldCount (appHeader dim) = 5)
    ∧ (dim ≠ "page" → serverKey dim k = k) := by
  have hc1 : commaCount (",") = 1 := by decide
  have hlit : commaCount (",clicks,impressions,ctr,position") = 4 := by decide
  constructor
  · refine ⟨stripCommas k ++ "," ++ natRender r.clicks ++ "," ++ natRender r.impressions
      ++ "," ++ renderDec r.ctr ++ "," ++ renderDec r.position, ?_, ?_, ?_⟩
    · simp [appRowLine, hk]
    · simp only [fieldCount, commaCount_append, commaCount_stripCommas,
        commaCount_natRender, commaCount_renderDec, hc1]
    · simp only [fieldCount, appHeader, commaCount_append, hdim, hlit]
  · intro h
    simp [serverKey, h]

/-- Claim C3 witness: a key containing a bar still yields a five-field CSV
line, and the Markdown form keeps that key verbatim. -/
theorem csv_field_count_witness :
    (∃ line, appRowLine rowBar = Except.ok line ∧ fieldCount line = 5
       ∧ fieldCount (appHeader ("query")) = 5)
    ∧ serverKey ("query") ("a|b") = "a|b" :=
  ⟨(csv_field_count_invariant ("query") rowBar ("a|b") [] rfl (by decide)).1,
   (csv_field_count_invariant ("query") rowBar ("a|b") [] rfl (by decide)).2 (by decide)⟩

/-- Claim C4 counterexample: the `server.py` variant's no-data message
depends on the grouping dimension (and on `days_ago`), and never equals the
`app.py` sentinel `"No data found for this period."` — so the two variants
do not share one dimension-independent sentinel. -/
theorem server_no_data_message_varies :
    get_search_analytics envOkEmpty saQ
        = Except.ok ("No data found for query in the last 7 days.")
    ∧ get_search_analytics envOkEmpty saP
        = Except.ok ("No data found for page in the last 7 days.")
    ∧ ("No data found for query in the last 7 days." : String)
        ≠ "No data found for page in the last 7 days."
    ∧ ("No data found for query in the last 7 days." : String)
        ≠ "No data found for this period." :=
  ⟨rfl, rfl, by decide, by decide⟩

/-- Claim C4 (amended).  On an empty row sequence, `app.py` returns the
constant sentinel `"No data found for this period."` for every dimension
and limit (not an error, not an empty table); `server.py` returns a no-data
message that embeds the dimension and `days_ago` (constant in `limit`). -/
theorem no_data_sentinels (env : Env) (a : FetchArgs) (sa : ServerArgs)
    (ds : String × String)
    (hc : env.cred = Except.ok ())
    (hb : ∀ q, env.backend q = Except.ok ⟨[]⟩)
    (hd : dateLogic env.today a.days_ago a.start_date a.end_date = Except.ok ds) :
    fetch_gsc_data env a = "No data found for this period."
    ∧ get_search_analytics env sa
        = Except.ok ("No data found for " ++ sa.dimension ++ " in the last "
                     ++ intRender sa.days_ago ++ " days.") := by
  constructor
  · simp [fetch_gsc_data, fetchBody, hc, appRequest, hd, hb, normalizeApp]
  · simp [get_search_analytics, get_gsc_service, hc, serverBackendPhase, hb,
          serverNormalize]

/-- Claim C4 witness: both variants at a concrete empty-rows environment. -/
theorem no_data_sentinels_witness :
    fetch_gsc_data envOkEmpty argsDefault = "No data found for this period."
    ∧ get_search_analytics envOkEmpty saQ
        = Except.ok ("No data found for " ++ "query" ++ " in the last "
                     ++ intRender 7 ++ " days.") :=
  no_data_sentinels envOkEmpty argsDefault saQ (isoformat 19993, isoformat 20000)
    rfl (fun _ => rfl) rfl

/-- Claim C6 counterexample: the compact CSV form interpolates `position`
raw — the value 8.34 is emitted as `"8.34"` (two fractional digits), while a
one-decimal-place rendering would be `"8.3"` — so position is not rendered
with one decimal place in both forms. -/
theorem compact_position_not_one_decimal :
    appRowLine rowPos = Except.ok ("k,5,100,0.024,8.34")
    ∧ renderDec ⟨834, 2⟩ = "8.34" ∧ fracCount ("8.34") = 2
    ∧ fmtFixed1 ⟨834, 2⟩ = "8.3" :=
  ⟨rfl, rfl, by decide, rfl⟩

/-- Claim C6 (amended).  The Markdown table form renders click-through-rate
as a one-decimal percentage (`.1%`) and position with one decimal place
(`.1f`, which always shows exactly one fractional digit); the compact CSV
form renders both click-through-rate and position as raw values. -/
theorem rendering_forms :
    (∀ (r : AnalyticsRow) (k : String) (rest : List String), r.keys = k :: rest →
       appRowLine r = Except.ok (stripCommas k ++ "," ++ natRender r.clicks ++ "," ++
           natRender r.impressions ++ "," ++ renderDec r.ctr ++ "," ++
           renderDec r.position)
       ∧ ∀ dim : String, serverRowLine dim r
           = Except.ok ("| " ++ serverKey dim k ++ " | " ++ natRender r.clicks ++ " | " ++
               natRender r.impressions ++ " | " ++ fmtPercent1 r.ctr ++ " | " ++
               fmtFixed1 r.position ++ " |\n"))
    ∧ (∀ x : DecNum, fracCount (fmtFixed1 x) = 1) := by
  constructor
  · intro r k rest hk
    constructor
    · simp [appRowLine, hk]
    · intro dim
      simp [serverRowLine, hk]
  · exact fracCount_fmtFixed1

/-- Claim C6 witness: the concrete row with ctr 0.024 and position 8.34. -/
theorem rendering_forms_witness :
    appRowLine rowPos = Except.ok (stripCommas ("k") ++ "," ++ natRender rowPos.clicks
        ++ "," ++ natRender rowPos.impressions ++ "," ++ renderDec rowPos.ctr ++ "," ++
        renderDec rowPos.position)
    ∧ fracCount (fmtFixed1 ⟨834, 2⟩) = 1 :=
  ⟨(rendering_forms.1 rowPos ("k") [] rfl).1, rendering_forms.2 ⟨834, 2⟩⟩

/-- Claim C9 (confirmed, spec-modelled).  Under the TTL memoization of
`@st.cache_data(ttl=3600)`: a first call from an empty cache runs the
pipeline exactly once and returns/stores its result (whatever string it is,
error and no-data sentinels included); a second call with the identical
argument tuple before expiry returns the stored result with zero pipeline
executions; a call at or after expiry runs the pipeline again. -/
theorem ttl_memoization (env : Env) (a : FetchArgs) (t1 t2 : Int) :
    (cachedFetch env ⟨[]⟩ t1 a).1 = fetch_gsc_data env a
    ∧ (cachedFetch env ⟨[]⟩ t1 a).2.2 = 1
    ∧ (t2 < t1 + 3600 →
        cachedFetch env (cachedFetch env ⟨[]⟩ t1 a).2.1 t2 a
          = (fetch_gsc_data env a, (cachedFetch env ⟨[]⟩ t1 a).2.1, 0))
    ∧ (t1 + 3600 ≤ t2 →
        (cachedFetch env (cachedFetch env ⟨[]⟩ t1 a).2.1 t2 a).2.2 = 1) := by
  have h0 : cacheLookup ⟨[]⟩ a t1 = none := rfl
  have hst : (cachedFetch env ⟨[]⟩ t1 a).2.1
      = ⟨[(a, fetch_gsc_data env a, t1 + 3600)]⟩ := by
    simp [cachedFetch, h0]
  refine ⟨by simp [cachedFetch, h0], by simp [cachedFetch, h0], ?_, ?_⟩
  · intro ht
    rw [hst]
    simp [cachedFetch, cacheLookup, List.find?, ht]
  · intro ht
    rw [hst]
    have hlt : ¬ (t2 < t1 + 3600) := by omega
    simp [cachedFetch, cacheLookup, List.find?, hlt]

/-- Claim C9 witness: miss at time 0, hit at time 100, fresh call at 5000. -/
theorem ttl_memoization_witness :
    (cachedFetch envOkEmpty ⟨[]⟩ 0 argsDefault).2.2 = 1
    ∧ cachedFetch envOkEmpty (cachedFetch envOkEmpty ⟨[]⟩ 0 argsDefault).2.1 100 argsDefault
        = (fetch_gsc_data envOkEmpty argsDefault,
           (cachedFetch envOkEmpty ⟨[]⟩ 0 argsDefault).2.1, 0)
    ∧ (cachedFetch envOkEmpty (cachedFetch envOkEmpty ⟨[]⟩ 0 argsDefault).2.1 5000
         argsDefault).2.2 = 1 :=
  ⟨(ttl_memoization envOkEmpty argsDefault 0 100).2.1,
   (ttl_memoization envOkEmpty argsDefault 0 100).2.2.1 (by decide),
   (ttl_memoization envOkEmpty argsDefault 0 5000).2.2.2 (by decide)⟩

/-- Claim C10 (confirmed): the normalizers read only the first element of a
row's `keys`; a row with an empty `keys` list raises `IndexError`
(`"list index out of range"`), which each variant's pipeline-boundary
handler converts to its error-text sentinel instead of letting it escape or
emitting a malformed line. -/
theorem empty_keys_caught (env : Env) (a : FetchArgs) (ds : String × String)
    (rows : List AnalyticsRow) (r : AnalyticsRow)
    (hc : env.cred = Except.ok ())
    (hd : dateLogic env.today a.days_ago a.start_date a.end_date = Except.ok ds)
    (hb : ∀ q, env.backend q = Except.ok ⟨rows⟩)
    (hr : r ∈ rows) (hk : r.keys = []) :
    fetch_gsc_data env a = "Error fetching GSC data: list index out of range"
    ∧ ∀ sa : ServerArgs, get_search_analytics env sa
        = Except.ok ("Error: list index out of range") := by
  have hfr : appRowLine r = Except.error ("list index out of range") := by
    simp [appRowLine, hk]
  have happ : collectLines appRowLine rows = Except.error ("list index out of range") :=
    collectLines_err appRowLine ("list index out of range") appRowLine_err rows r hr hfr
  have hne : rows.isEmpty = false := by
    cases rows with
    | nil => exact absurd hr (List.not_mem_nil r)
    | cons x xs => rfl
  constructor
  · simp [fetch_gsc_data, fetchBody, hc, appRequest, hd, hb, normalizeApp, hne, happ]
  · intro sa
    have hfr2 : serverRowLine sa.dimension r = Except.error ("list index out of range") := by
      simp [serverRowLine, hk]
    have hsrv : collectLines (serverRowLine sa.dimension) rows
        = Except.error ("list index out of range") :=
      collectLines_err (serverRowLine sa.dimension) ("list index out of range")
        (serverRowLine_err sa.dimension) rows r hr hfr2
    simp [get_search_analytics, get_gsc_service, hc, serverBackendPhase, hb,
          serverNormalize, hne, hsrv]

/-- Claim C10 witness: a backend answering one empty-keys row makes both
variants return their error sentinels. -/
theorem empty_keys_caught_witness :
    fetch_gsc_data envKeysBad argsDefault
        = "Error fetching GSC data: list index out of range"
    ∧ get_search_analytics envKeysBad saQ = Except.ok ("Error: list index out of range") :=
  ⟨(empty_keys_caught envKeysBad argsDefault (isoformat 19993, isoformat 20000)
      [rowEmptyKeys] rowEmptyKeys rfl rfl (fun _ => rfl)
      (List.mem_cons_self rowEmptyKeys []) rfl).1,
   (empty_keys_caught envKeysBad argsDefault (isoformat 19993, isoformat 20000)
      [rowEmptyKeys] rowEmptyKeys rfl rfl (fun _ => rfl)
      (List.mem_cons_self rowEmptyKeys []) rfl).2 saQ⟩
